import Mathlib

/-!
Shallow embedding of the Link Monitoring & Download Orchestration Engine of
the media-auto-saver backend (Python sources under backend/app/): the link
data model, the status/history recorder (crud_link.update_status,
crud_history.create_log), the downloader selector and tool invoker
(services/downloader.py), the per-link processor and the batch dispatcher
(tasks/link_monitor.py), the startup reset (main.py lifespan), and the
manual trigger endpoint (api/v1/endpoints/links.py).

Timestamps are modelled as natural numbers supplied to each operation
(the code reads datetime.now at each update).  The database is modelled as
a list of links plus an append-only list of history rows; the ORM's
"mutate the fetched object and commit" is rendered as replace-by-id.
Python truthiness of optional strings (None and "" are falsy) is modelled
explicitly by `pyTruthy`.
-/

inductive LinkType where
  | CREATOR
  | LIVE
deriving DecidableEq, Repr

inductive LinkStatus where
  | IDLE
  | MONITORING
  | DOWNLOADING
  | RECORDING
  | ERROR
deriving DecidableEq, Repr

inductive HistoryStatus where
  | SUCCESS
  | FAILURE
deriving DecidableEq, Repr

/-- The Link row (models/link.py).  Fields never read nor written by the
orchestration code under verification (name, description, tags, settings,
created_at) are omitted. -/
structure Link where
  id : Nat
  url : String
  link_type : LinkType
  site_name : Option String
  status : LinkStatus
  last_checked_at : Option Nat
  last_success_at : Option Nat
  error_message : Option String
  cookies_path : Option String
  is_enabled : Bool
  updated_at : Nat
deriving DecidableEq, Repr

/-- One HistoryLog row (models/history.py) as written by
crud_history.create_log; the auto-generated timestamp and the unused
details field are omitted. -/
structure HistoryLog where
  link_id : Nat
  status : HistoryStatus
  downloaded_files : Option (List String)
  error_message : Option String
deriving DecidableEq, Repr

/-- The persistent state touched by the engine: the link table and the
append-only history table. -/
structure DB where
  links : List Link
  history : List HistoryLog
deriving DecidableEq, Repr

/-- crud.link.get: first row with the given primary key. -/
def getLink (db : DB) (id : Nat) : Option Link :=
  db.links.find? (fun l => l.id = id)

/-- Committing a mutated ORM object: replace the row with the same id. -/
def setLink (db : DB) (l : Link) : DB :=
  { db with links := db.links.map (fun x => if x.id = l.id then l else x) }

/-- crud.history_log.create_log: append one immutable row. -/
def addHistory (db : DB) (h : HistoryLog) : DB :=
  { db with history := db.history ++ [h] }

/-- CRUDLink.update_status (crud/crud_link.py, lines 244-280): always sets
the new status and last_checked_at; sets error_message only when the new
status is ERROR and clears it otherwise; sets last_success_at only when
is_success; CRUDBase.update also bumps updated_at. -/
def update_status (l : Link) (status : LinkStatus) (error_message : Option String)
    (is_success : Bool) (now : Nat) : Link :=
  { l with
    status := status
    last_checked_at := some now
    error_message := if status = LinkStatus.ERROR then error_message else none
    last_success_at := if is_success then some now else l.last_success_at
    updated_at := now }

/-- The statuses reset at startup (main.py lifespan, lines 80-94). -/
def intermediate_statuses : List LinkStatus :=
  [LinkStatus.DOWNLOADING, LinkStatus.RECORDING, LinkStatus.MONITORING]

/-- The startup reset in main.py's lifespan: every link whose status is in
an intermediate state is passed to update_status with status IDLE and
error_message "Reset on startup" (is_success defaults to False).  No
history row is written. -/
def lifespan_reset (db : DB) (now : Nat) : DB :=
  { db with links := db.links.map (fun l =>
      if l.status ∈ intermediate_statuses then
        update_status l LinkStatus.IDLE (some "Reset on startup") false now
      else l) }

-- Projection facts about update_status used throughout.

theorem update_status_id (l : Link) (s : LinkStatus) (em : Option String)
    (b : Bool) (n : Nat) : (update_status l s em b n).id = l.id := rfl

theorem update_status_site (l : Link) (s : LinkStatus) (em : Option String)
    (b : Bool) (n : Nat) : (update_status l s em b n).site_name = l.site_name := rfl

theorem update_status_cookies (l : Link) (s : LinkStatus) (em : Option String)
    (b : Bool) (n : Nat) : (update_status l s em b n).cookies_path = l.cookies_path := rfl

theorem update_status_type (l : Link) (s : LinkStatus) (em : Option String)
    (b : Bool) (n : Nat) : (update_status l s em b n).link_type = l.link_type := rfl

/-! ## Downloader selector (services/downloader.py, get_downloader_for_link) -/

/-- The ambient configuration read by the selector (core/config.py). -/
structure Settings where
  MEDIA_ROOT : String
  SITE_COOKIES : String → Option String
  MAX_CONCURRENT_DOWNLOADS : Nat

/-- Python truthiness of an optional string: None and "" are falsy. -/
def pyTruthy : Option String → Bool
  | some s => s ≠ ""
  | none => false

/-- os.path.join for the concrete joins performed by the code. -/
def joinPath (a b : String) : String := a ++ "/" ++ b

/-- str.lower(), character by character (the compared site names are
ASCII). -/
def pyLower (s : String) : String := String.mk (s.data.map Char.toLower)

/-- str.endswith for a single suffix, character by character. -/
def pyEndsWith (s suf : String) : Bool :=
  suf.data.reverse.isPrefixOf s.data.reverse

/-- The fixed allowlist of sites routed to gallery-dl. -/
def gdl_sites : List String :=
  ["pixiv", "instagram", "deviantart", "artstation", "weibo", "xiaohongshu"]

/-- GDL_DEFAULT_ARGS from services/downloader.py. -/
def gdl_default_args (st : Settings) : List String :=
  ["--directory", st.MEDIA_ROOT,
   "--write-metadata",
   "--ugoira-conv-lossless",
   "--retries", "5",
   "--sleep", "1-3",
   "--download-archive", joinPath st.MEDIA_ROOT "gallery_dl_archive.sqlite",
   "--concurrent", toString st.MAX_CONCURRENT_DOWNLOADS]

/-- The yt-dlp options read or written by the orchestration code; the
remaining YDL_DEFAULT_OPTS entries are constants never consulted again.
live_from_start is absent from the default dict, modelled as false. -/
structure YdlOpts where
  outtmpl : String
  live_from_start : Bool
  cookiefile : Option String
deriving DecidableEq, Repr

def ydl_default_opts (st : Settings) : YdlOpts :=
  { outtmpl := joinPath st.MEDIA_ROOT
      (joinPath "%(uploader)s [%(channel_id)s]" "%(title)s [%(id)s].%(ext)s")
    live_from_start := false
    cookiefile := none }

inductive DlConfig where
  | gdl (args : List String)
  | ydl (opts : YdlOpts)
deriving DecidableEq, Repr

/-- `site = link.site_name.lower() if link.site_name else ""`:
None and the empty string both yield "". -/
def siteOf (link : Link) : String :=
  match link.site_name with
  | some s => if s = "" then "" else pyLower s
  | none => ""

/-- get_downloader_for_link (services/downloader.py, lines 51-126).
`pathExists` models os.path.exists.  The cookie-selection block is written
twice in the source (once per downloader branch); the embedding mirrors
that. -/
def get_downloader_for_link (st : Settings) (pathExists : String → Bool)
    (link : Link) : String × DlConfig :=
  let site := siteOf link
  if site ∈ gdl_sites then
    let gdl_args := gdl_default_args st
    let fromLink : Option String :=
      if pyTruthy link.cookies_path && pathExists (link.cookies_path.getD "") then
        link.cookies_path
      else none
    let cookie_path_to_use : Option String :=
      match fromLink with
      | some p => some p
      | none =>
        let global_cookie_path := st.SITE_COOKIES site
        if pyTruthy global_cookie_path && pathExists (global_cookie_path.getD "") then
          global_cookie_path
        else none
    let gdl_args :=
      match cookie_path_to_use with
      | some p => gdl_args ++ ["--cookies", p]
      | none => gdl_args
    ("gallery-dl", DlConfig.gdl gdl_args)
  else
    let ydl_opts := ydl_default_opts st
    let ydl_opts :=
      if link.link_type = LinkType.LIVE then
        { ydl_opts with
          outtmpl := joinPath st.MEDIA_ROOT (joinPath "Live Recordings"
            (joinPath "%(uploader)s [%(channel_id)s]"
              "%(title)s - %(timestamp)s [%(id)s].%(ext)s"))
          live_from_start := true }
      else ydl_opts
    let fromLink : Option String :=
      if pyTruthy link.cookies_path && pathExists (link.cookies_path.getD "") then
        link.cookies_path
      else none
    let cookie_path_to_use_ydl : Option String :=
      match fromLink with
      | some p => some p
      | none =>
        let global_cookie_path_ydl := st.SITE_COOKIES site
        if pyTruthy global_cookie_path_ydl && pathExists (global_cookie_path_ydl.getD "") then
          global_cookie_path_ydl
        else none
    let ydl_opts :=
      match cookie_path_to_use_ydl with
      | some p => { ydl_opts with cookiefile := some p }
      | none => ydl_opts
    ("yt-dlp", DlConfig.ydl ydl_opts)

/-- The cookie option carried by a selected configuration: the value after
"--cookies" for gallery-dl, the cookiefile entry for yt-dlp. -/
def argsCookie : List String → Option String
  | a :: b :: rest => if a = "--cookies" then some b else argsCookie (b :: rest)
  | _ => none

def configCookie : DlConfig → Option String
  | DlConfig.gdl args => argsCookie args
  | DlConfig.ydl o => o.cookiefile

/-! ## Tool invoker and output parser (services/downloader.py, download_media) -/

/-- One progress-hook event delivered by yt-dlp: its status string, the
filepath reported in info_dict, and the top-level filename. -/
structure YdlEvent where
  status : String
  info_filepath : Option String
  filename : Option String
deriving DecidableEq, Repr

/-- Behaviour of the external tools in one run: the hook events yt-dlp
fired, whether yt-dlp raised a DownloadError (with its text), and the
gallery-dl subprocess observation (none models FileNotFoundError;
otherwise return code, stdout lines, stderr text). -/
structure ToolBehavior where
  ydlEvents : List YdlEvent
  ydlRaises : Option String
  gdlSpawn : Option (Int × List String × String)

/-- Suffixes rejected by the yt-dlp filename hook. -/
def partSuffixes : List String := [".part", ".temp", ".ytdl"]

/-- ydl_filename_hook (downloader.py, lines 147-166): on a 'finished'
event, take info_dict.filepath, falling back to filename when the former
is falsy; accept the path only when it does not end in a partial suffix
and exists as a regular file. -/
def ydlHookStep (pathExists isFile : String → Bool) (acc : List String)
    (e : YdlEvent) : List String :=
  if e.status = "finished" then
    let fp := if pyTruthy e.info_filepath then e.info_filepath else e.filename
    if pyTruthy fp then
      let p := fp.getD ""
      if !(partSuffixes.any (fun suf => pyEndsWith p suf)) && pathExists p && isFile p then
        acc ++ [p]
      else acc
    else acc
  else acc

/-- The list accumulated by the hook over a whole run. -/
def ydlCollected (pathExists isFile : String → Bool) (events : List YdlEvent) : List String :=
  events.foldl (ydlHookStep pathExists isFile) []

/-- The characters matched by the regex class \s in Python. -/
def pySpace (c : Char) : Bool :=
  c = ' ' || c = '\t' || c = '\n' || c = '\r' || c = '\x0b' || c = '\x0c'

/-- str.strip(): drop \s characters from both ends. -/
def pyStrip (s : String) : String :=
  String.mk (((s.data.dropWhile pySpace).reverse.dropWhile pySpace).reverse)

/-- One iteration of the bracketed-prefix part of the gallery-dl output
pattern, r"\[[^\]]+\]\s*": an opening bracket, a nonempty run of
non-bracket characters, the closing bracket, then any whitespace. -/
def consumeBracket : List Char → Option (List Char)
  | [] => none
  | c :: rest =>
    if c = '[' then
      let content := rest.takeWhile (fun x => x ≠ ']')
      let rest2 := rest.dropWhile (fun x => x ≠ ']')
      match rest2 with
      | [] => none
      | _ :: rest3 => if content.isEmpty then none else some (rest3.dropWhile pySpace)
    else none

/-- Match a literal character sequence at the front of the input. -/
def stripLit : List Char → List Char → Option (List Char)
  | [], cs => some cs
  | _ :: _, [] => none
  | l :: ls, c :: cs => if c = l then stripLit ls cs else none

/-- Characters excluded from the captured path, the class [^'\"\s]. -/
def notPathChar (c : Char) : Bool :=
  c = '"' || c = Char.ofNat 39 || pySpace c

/-- The tail of the gallery-dl output pattern after the bracketed
prefixes: an optional "Writing data to" with trailing whitespace, an
optional quote, then the captured group: the escaped MEDIA_ROOT, a slash,
and a nonempty greedy run of non-quote non-whitespace characters.  The
optional pieces are deterministic because MEDIA_ROOT is an absolute path
(it starts with '/', which is neither a quote, whitespace, nor 'W'). -/
def matchTail (mediaRoot : String) (cs : List Char) : Option String :=
  let cs1 :=
    match stripLit "Writing data to".data cs with
    | some rest => rest.dropWhile pySpace
    | none => cs
  let cs2 :=
    match cs1 with
    | c :: rest => if c = '"' || c = Char.ofNat 39 then rest else cs1
    | [] => cs1
  match stripLit mediaRoot.data cs2 with
  | none => none
  | some cs3 =>
    match cs3 with
    | c :: rest =>
      if c = '/' then
        let body := rest.takeWhile (fun x => !(notPathChar x))
        if body.isEmpty then none
        else some (mediaRoot ++ String.mk ('/' :: body))
      else none
    | [] => none

/-- The anchored search: the greedy star over bracketed prefixes with
backtracking (try consuming one more prefix first; on failure retry the
tail at the current position).  Fuel is the input length; consumeBracket
always consumes at least two characters. -/
def gdlSearchAux (mediaRoot : String) : Nat → List Char → Option String
  | 0, cs => matchTail mediaRoot cs
  | Nat.succ fuel, cs =>
    match consumeBracket cs with
    | some rest =>
      match gdlSearchAux mediaRoot fuel rest with
      | some p => some p
      | none => matchTail mediaRoot cs
    | none => matchTail mediaRoot cs

/-- path_pattern.search(line.strip()) (downloader.py, lines 254-265): the
pattern is anchored at the start by '^', so search only ever matches at
the beginning of the stripped line. -/
def gdlMatchLine (mediaRoot : String) (line : String) : Option String :=
  let s := pyStrip line
  gdlSearchAux mediaRoot s.length s.data

/-- The gallery-dl stdout scan (downloader.py, lines 262-271): per line,
a pattern match whose captured path is stripped and kept only when it
exists as a regular file. -/
def gdlCollected (st : Settings) (pathExists isFile : String → Bool)
    (lines : List String) : List String :=
  lines.foldl (fun acc line =>
    match gdlMatchLine st.MEDIA_ROOT line with
    | some fp0 =>
      let fp := pyStrip fp0
      if pathExists fp && isFile fp then acc ++ [fp] else acc
    | none => acc) []

/-- The normalized outcome dictionary returned by download_media. -/
structure DownloadResult where
  status : String
  error : Option String
  downloaded_files : List String
deriving DecidableEq, Repr

def ydl_no_files_msg : String :=
  "yt-dlp finished, but no files were detected by the hook. Check logs for details."

/-- download_media (services/downloader.py, lines 129-313).  The Python
list(set(...)) deduplication is modelled by List.dedup (set iteration
order is unspecified in Python; only the underlying set of paths is
meaningful). -/
def download_media (st : Settings) (pathExists isFile : String → Bool)
    (tb : ToolBehavior) (link : Link) : DownloadResult :=
  let nc := get_downloader_for_link st pathExists link
  let downloader_name := nc.1
  if downloader_name = "yt-dlp" then
    let files := ydlCollected pathExists isFile tb.ydlEvents
    match tb.ydlRaises with
    | none =>
      if !files.isEmpty then
        { status := "success", error := none, downloaded_files := files.dedup }
      else
        { status := "error", error := some ydl_no_files_msg, downloaded_files := [] }
    | some de =>
      { status := "error", error := some ("yt-dlp DownloadError: " ++ de),
        downloaded_files := if !files.isEmpty then files.dedup else [] }
  else if downloader_name = "gallery-dl" then
    match tb.gdlSpawn with
    | none =>
      { status := "error", error := some "gallery-dl command not found.",
        downloaded_files := [] }
    | some (returncode, out) =>
      let files := gdlCollected st pathExists isFile out.1
      if returncode = 0 then
        { status := "success", error := none, downloaded_files := files.dedup }
      else
        { status := "error",
          error := some ("gallery-dl failed with code " ++ toString returncode ++
            ". Stderr: " ++ out.2),
          downloaded_files := files.dedup }
  else
    { status := "error", error := some ("Unknown downloader: " ++ downloader_name),
      downloaded_files := [] }

/-! ## Link processor (tasks/link_monitor.py, process_link)

Each awaited persistence or download call inside the try block can raise;
the oracle records, per call site, whether it raises and with what
message.  A raising call is modelled as leaving the state unchanged and
escaping with its message; the surrounding try/except structure is
translated literally. -/

structure ExcOracle where
  getRaises : Option String
  update1Raises : Option String
  downloadRaises : Option String
  finalUpdateRaises : Option String
  logRaises : Option String
  recoveryGetRaises : Option String
  recoveryUpdateRaises : Option String
  recoveryLogRaises : Option String

/-- The run in which no call raises. -/
def noExc : ExcOracle :=
  { getRaises := none, update1Raises := none, downloadRaises := none,
    finalUpdateRaises := none, logRaises := none, recoveryGetRaises := none,
    recoveryUpdateRaises := none, recoveryLogRaises := none }

def unknown_error_msg : String := "Unknown download error"

/-- The try block of process_link (link_monitor.py, lines 32-74): fetch,
skip when missing or disabled, first transition to the in-flight status,
download, final transition plus one history row.  Returns the state
reached together with the exception escaping the block, if any. -/
def process_link_body (dl : Link → DownloadResult) (o : ExcOracle) (db : DB)
    (link_id : Nat) (t1 t2 : Nat) : DB × Option String :=
  match o.getRaises with
  | some e => (db, some e)
  | none =>
    match getLink db link_id with
    | none => (db, none)
    | some link =>
      if !link.is_enabled then (db, none)
      else
        match o.update1Raises with
        | some e => (db, some e)
        | none =>
          let action := if link.link_type = LinkType.CREATOR then
              LinkStatus.DOWNLOADING else LinkStatus.RECORDING
          let link1 := update_status link action none false t1
          let db1 := setLink db link1
          match o.downloadRaises with
          | some e => (db1, some e)
          | none =>
            let r := dl link1
            if r.status = "success" then
              match o.finalUpdateRaises with
              | some e => (db1, some e)
              | none =>
                let link2 := update_status link1 LinkStatus.IDLE none true t2
                let db2 := setLink db1 link2
                match o.logRaises with
                | some e => (db2, some e)
                | none =>
                  (addHistory db2
                    { link_id := link_id, status := HistoryStatus.SUCCESS,
                      downloaded_files := some r.downloaded_files,
                      error_message := none }, none)
            else
              let error_msg := r.error.getD unknown_error_msg
              match o.finalUpdateRaises with
              | some e => (db1, some e)
              | none =>
                let link2 := update_status link1 LinkStatus.ERROR (some error_msg) false t2
                let db2 := setLink db1 link2
                match o.logRaises with
                | some e => (db2, some e)
                | none =>
                  (addHistory db2
                    { link_id := link_id, status := HistoryStatus.FAILURE,
                      downloaded_files := none,
                      error_message := some error_msg }, none)

/-- process_link (link_monitor.py, lines 20-100): the try block followed
by the except block, whose best-effort recovery re-fetches the link and,
when found, forces status ERROR and appends a FAILURE row; any failure
inside the recovery is swallowed by the inner except.  The second
component is the exception propagated to the caller. -/
def process_link_run (dl : Link → DownloadResult) (o : ExcOracle) (db : DB)
    (link_id : Nat) (t1 t2 t3 : Nat) : DB × Option String :=
  let body := process_link_body dl o db link_id t1 t2
  match body.2 with
  | none => (body.1, none)
  | some e =>
    let dbx := body.1
    match o.recoveryGetRaises with
    | some _ => (dbx, none)
    | none =>
      match getLink dbx link_id with
      | none => (dbx, none)
      | some link_for_status =>
        match o.recoveryUpdateRaises with
        | some _ => (dbx, none)
        | none =>
          let error_msg := "Processing Exception: " ++ e
          let link2 := update_status link_for_status LinkStatus.ERROR (some error_msg) false t3
          let db2 := setLink dbx link2
          match o.recoveryLogRaises with
          | some _ => (db2, none)
          | none =>
            (addHistory db2
              { link_id := link_id, status := HistoryStatus.FAILURE,
                downloaded_files := none,
                error_message := some error_msg }, none)

def process_link (dl : Link → DownloadResult) (o : ExcOracle) (db : DB)
    (link_id : Nat) (t1 t2 t3 : Nat) : DB :=
  (process_link_run dl o db link_id t1 t2 t3).1

/-! ## Job dispatcher and manual trigger -/

/-- The selection query of trigger_monitoring_job (link_monitor.py, lines
119-123): enabled links whose status is not in the in-flight set. -/
def selectEligible (links : List Link) : List Link :=
  links.filter (fun l => l.is_enabled &&
    !(l.status = LinkStatus.DOWNLOADING || l.status = LinkStatus.RECORDING ||
      l.status = LinkStatus.MONITORING))

/-- trigger_monitoring_job (link_monitor.py, lines 103-146): snapshot the
eligible links, then run process_link for each selected id.  The
concurrent fan-out is modelled as a sequential fold (one linearization);
the semaphore admission itself is modelled separately below.  Oracles,
tool behaviour and clock readings are supplied per link id. -/
def trigger_monitoring_job (dl : Link → DownloadResult) (os : Nat → ExcOracle)
    (ts : Nat → Nat × Nat × Nat) (db : DB) : DB :=
  let enabled_links := selectEligible db.links
  enabled_links.foldl (fun acc l =>
    process_link dl (os l.id) acc l.id (ts l.id).1 (ts l.id).2.1 (ts l.id).2.2) db

inductive TriggerResult where
  | notFound
  | conflict
  | triggered
deriving DecidableEq, Repr

/-- trigger_link_task (api/v1/endpoints/links.py, lines 173-199): 404 when
the link is missing, 400 conflict when its status is in-flight, otherwise
start one process_link run without touching the batch semaphore. -/
def trigger_link_task (dl : Link → DownloadResult) (o : ExcOracle) (db : DB)
    (link_id : Nat) (t1 t2 t3 : Nat) : TriggerResult × DB :=
  match getLink db link_id with
  | none => (TriggerResult.notFound, db)
  | some link =>
    if link.status = LinkStatus.MONITORING || link.status = LinkStatus.DOWNLOADING ||
        link.status = LinkStatus.RECORDING then
      (TriggerResult.conflict, db)
    else
      (TriggerResult.triggered, process_link dl o db link_id t1 t2 t3)

/-! ## Concurrency admission (link_monitor.py, lines 112-143)

One batch creates one task per selected link; each task runs
process_link_with_semaphore, i.e. acquires the shared
asyncio.Semaphore(MAX_CONCURRENT_DOWNLOADS), runs the link processor
while holding it, and releases it.  The manual trigger endpoint creates a
task running process_link directly, with no acquire.  The model is the
standard event-loop interleaving: a batch task moves pending → running by
an acquire (enabled only when the counter is positive, which it
decrements) and running → finished by the matching release; a manual task
moves between the same phases without touching the counter. -/

inductive TaskPhase where
  | pending
  | running
  | finished
deriving DecidableEq, Repr

structure SchedState where
  sem : Nat
  batch : List TaskPhase
  manual : List TaskPhase
deriving DecidableEq, Repr

/-- The batch start: semaphore counter at the configured maximum, N batch
tasks and M manual-trigger tasks created, none yet admitted. -/
def initSched (K N M : Nat) : SchedState :=
  { sem := K, batch := List.replicate N TaskPhase.pending,
    manual := List.replicate M TaskPhase.pending }

inductive SchedLabel where
  | acquireStart (i : Nat)
  | releaseFinish (i : Nat)
  | manualStart (i : Nat)
  | manualFinish (i : Nat)

inductive SchedStep : SchedState → SchedLabel → SchedState → Prop where
  | acquireStart (s : SchedState) (i : Nat) :
      s.batch[i]? = some TaskPhase.pending → 0 < s.sem →
      SchedStep s (SchedLabel.acquireStart i)
        { s with sem := s.sem - 1, batch := s.batch.set i TaskPhase.running }
  | releaseFinish (s : SchedState) (i : Nat) :
      s.batch[i]? = some TaskPhase.running →
      SchedStep s (SchedLabel.releaseFinish i)
        { s with sem := s.sem + 1, batch := s.batch.set i TaskPhase.finished }
  | manualStart (s : SchedState) (i : Nat) :
      s.manual[i]? = some TaskPhase.pending →
      SchedStep s (SchedLabel.manualStart i)
        { s with manual := s.manual.set i TaskPhase.running }
  | manualFinish (s : SchedState) (i : Nat) :
      s.manual[i]? = some TaskPhase.running →
      SchedStep s (SchedLabel.manualFinish i)
        { s with manual := s.manual.set i TaskPhase.finished }

def SchedReach (s0 s : SchedState) : Prop :=
  Relation.ReflTransGen (fun a b => ∃ lab, SchedStep a lab b) s0 s

/-- The number of simultaneously in-flight link-processor runs of the batch. -/
def runningCount (ts : List TaskPhase) : Nat := ts.count TaskPhase.running

/-! ## Helper lemmas about the database operations -/

theorem getLink_id {db : DB} {i : Nat} {l : Link} (h : getLink db i = some l) :
    l.id = i := by
  have := List.find?_some h
  simpa using this

theorem getLink_mem {db : DB} {i : Nat} {l : Link} (h : getLink db i = some l) :
    l ∈ db.links :=
  List.mem_of_find?_eq_some h

theorem find?_replace_eq (i : Nat) (l' : Link) (hid : l'.id = i) :
    ∀ (ls : List Link) (l : Link),
      ls.find? (fun x => x.id = i) = some l →
      (ls.map (fun x => if x.id = l'.id then l' else x)).find? (fun x => x.id = i) = some l'
  | [], l, h => by simp [List.find?] at h
  | a :: tl, l, h => by
    by_cases ha : a.id = i
    · rw [List.map_cons, if_pos (by rw [hid]; exact ha)]
      exact List.find?_cons_of_pos _ (by simp [hid])
    · rw [List.map_cons, if_neg (by rw [hid]; exact ha),
        List.find?_cons_of_neg _ (by simp [ha])]
      rw [List.find?_cons_of_neg _ (by simp [ha])] at h
      exact find?_replace_eq i l' hid tl l h

theorem find?_replace_ne (i : Nat) (l' : Link) (hne : l'.id ≠ i) :
    ∀ ls : List Link,
      (ls.map (fun x => if x.id = l'.id then l' else x)).find? (fun x => x.id = i) =
        ls.find? (fun x => x.id = i)
  | [] => rfl
  | a :: tl => by
    by_cases ha : a.id = l'.id
    · rw [List.map_cons, if_pos ha]
      rw [List.find?_cons_of_neg _ (by simp [hne]),
        List.find?_cons_of_neg _ (by simp [ha ▸ hne])]
      exact find?_replace_ne i l' hne tl
    · rw [List.map_cons, if_neg ha]
      by_cases hai : a.id = i
      · rw [List.find?_cons_of_pos _ (by simp [hai]),
          List.find?_cons_of_pos _ (by simp [hai])]
      · rw [List.find?_cons_of_neg _ (by simp [hai]),
          List.find?_cons_of_neg _ (by simp [hai])]
        exact find?_replace_ne i l' hne tl

/-- After committing an object whose id is i on top of a table where a row
with id i was found, fetching i returns the committed object. -/
theorem getLink_setLink {db : DB} {i : Nat} {l l' : Link}
    (h : getLink db i = some l) (hid : l'.id = i) :
    getLink (setLink db l') i = some l' :=
  find?_replace_eq i l' hid db.links l h

/-- Committing an object with a different id leaves a fetch unchanged. -/
theorem getLink_setLink_ne {db : DB} {i : Nat} {l' : Link} (hne : l'.id ≠ i) :
    getLink (setLink db l') i = getLink db i :=
  find?_replace_ne i l' hne db.links

theorem setLink_history (db : DB) (l : Link) : (setLink db l).history = db.history := rfl

theorem addHistory_links (db : DB) (h : HistoryLog) : (addHistory db h).links = db.links := rfl

theorem addHistory_filter_ne (db : DB) (h : HistoryLog) (i : Nat) (hne : h.link_id ≠ i) :
    (addHistory db h).history.filter (fun x => x.link_id = i) =
      db.history.filter (fun x => x.link_id = i) := by
  unfold addHistory
  rw [List.filter_append]
  simp [hne]

/-! ## C10 -/

/-- C10: update_status forces error_message to none whenever the new
status is not ERROR, even when a caller supplies one, so after any status
update a non-none error_message implies status ERROR. -/
theorem C10_update_status_clears_error (l : Link) (s : LinkStatus)
    (em : Option String) (suc : Bool) (now : Nat) :
    (s ≠ LinkStatus.ERROR → (update_status l s em suc now).error_message = none) ∧
    ((update_status l s em suc now).error_message ≠ none →
      (update_status l s em suc now).status = LinkStatus.ERROR) := by
  constructor
  · intro h
    simp [update_status, h]
  · intro h
    by_cases hs : s = LinkStatus.ERROR
    · simp [update_status, hs]
    · simp [update_status, hs] at h

/-- A concrete link used to instantiate several witnesses. -/
def sampleLink : Link :=
  { id := 1, url := "https://example.com/a", link_type := LinkType.CREATOR,
    site_name := some "YouTube", status := LinkStatus.DOWNLOADING,
    last_checked_at := none, last_success_at := none,
    error_message := some "old error", cookies_path := none,
    is_enabled := true, updated_at := 0 }

/-- C10 witness: the startup-reset call itself (status IDLE with the
"Reset on startup" argument) leaves error_message none. -/
theorem C10_witness :
    (update_status sampleLink LinkStatus.IDLE (some "Reset on startup") false 5).error_message =
      none :=
  (C10_update_status_clears_error sampleLink LinkStatus.IDLE (some "Reset on startup") false 5).1
    (by decide)

/-! ## C1 -/

/-- C1 counterexample: a link in status DOWNLOADING is reset at startup,
yet its error_message afterwards is none, not the "Reset on startup"
marker the claim states — update_status discards the supplied message for
the non-ERROR status IDLE.  The reset does turn the status to IDLE and
creates no history rows. -/
theorem C1_counterexample :
    (lifespan_reset { links := [sampleLink], history := [] } 5).links.map Link.error_message ≠
      [some "Reset on startup"] ∧
    (lifespan_reset { links := [sampleLink], history := [] } 5).links.map Link.error_message =
      [none] ∧
    (lifespan_reset { links := [sampleLink], history := [] } 5).links.map Link.status =
      [LinkStatus.IDLE] ∧
    (lifespan_reset { links := [sampleLink], history := [] } 5).history = [] := by
  refine ⟨by decide, by decide, by decide, rfl⟩

/-- C1 (amended): on startup every link whose status is MONITORING,
DOWNLOADING, or RECORDING is reset to IDLE with its error_message cleared
to none (the fixed "Reset on startup" marker is passed to the status
updater but discarded, because error_message is only stored for status
ERROR), its last_checked_at stamped, and no HistoryLog rows are created. -/
theorem C1_startup_reset (db : DB) (now : Nat) (i : Nat) (l : Link)
    (hl : db.links[i]? = some l)
    (hst : l.status ∈ intermediate_statuses) :
    (lifespan_reset db now).history = db.history ∧
    ∃ l', (lifespan_reset db now).links[i]? = some l' ∧
      l'.id = l.id ∧ l'.status = LinkStatus.IDLE ∧ l'.error_message = none ∧
      l'.last_checked_at = some now := by
  refine ⟨rfl, update_status l LinkStatus.IDLE (some "Reset on startup") false now, ?_, rfl, rfl, ?_, rfl⟩
  · simp [lifespan_reset, List.getElem?_map, hl, hst]
  · simp [update_status]

/-- C1 witness: a one-link database with status DOWNLOADING. -/
theorem C1_startup_reset_witness :
    ∃ l', (lifespan_reset { links := [sampleLink], history := [] } 5).links[0]? = some l' ∧
      l'.id = sampleLink.id ∧ l'.status = LinkStatus.IDLE ∧ l'.error_message = none ∧
      l'.last_checked_at = some 5 :=
  (C1_startup_reset { links := [sampleLink], history := [] } 5 0 sampleLink rfl (by decide)).2

/-! ## The two terminal transitions of a clean processor run -/

/-- In a run without infrastructure exceptions, a found, enabled link
whose download reports success ends in the success transition. -/
theorem process_link_success_case (dl : Link → DownloadResult) (db : DB)
    (link_id t1 t2 t3 : Nat) (link : Link) (r : DownloadResult)
    (hget : getLink db link_id = some link)
    (hen : link.is_enabled = true)
    (hr : dl (update_status link
      (if link.link_type = LinkType.CREATOR then LinkStatus.DOWNLOADING else LinkStatus.RECORDING)
      none false t1) = r)
    (hs : r.status = "success") :
    process_link dl noExc db link_id t1 t2 t3 =
      addHistory
        (setLink
          (setLink db (update_status link
            (if link.link_type = LinkType.CREATOR then LinkStatus.DOWNLOADING else LinkStatus.RECORDING)
            none false t1))
          (update_status (update_status link
            (if link.link_type = LinkType.CREATOR then LinkStatus.DOWNLOADING else LinkStatus.RECORDING)
            none false t1) LinkStatus.IDLE none true t2))
        { link_id := link_id, status := HistoryStatus.SUCCESS,
          downloaded_files := some r.downloaded_files, error_message := none } := by
  subst hr
  simp [process_link, process_link_run, process_link_body, noExc, hget, hen, hs]

/-- In a run without infrastructure exceptions, a found, enabled link
whose download does not report success ends in the failure transition. -/
theorem process_link_failure_case (dl : Link → DownloadResult) (db : DB)
    (link_id t1 t2 t3 : Nat) (link : Link) (r : DownloadResult)
    (hget : getLink db link_id = some link)
    (hen : link.is_enabled = true)
    (hr : dl (update_status link
      (if link.link_type = LinkType.CREATOR then LinkStatus.DOWNLOADING else LinkStatus.RECORDING)
      none false t1) = r)
    (hs : r.status ≠ "success") :
    process_link dl noExc db link_id t1 t2 t3 =
      addHistory
        (setLink
          (setLink db (update_status link
            (if link.link_type = LinkType.CREATOR then LinkStatus.DOWNLOADING else LinkStatus.RECORDING)
            none false t1))
          (update_status (update_status link
            (if link.link_type = LinkType.CREATOR then LinkStatus.DOWNLOADING else LinkStatus.RECORDING)
            none false t1) LinkStatus.ERROR (some (r.error.getD unknown_error_msg)) false t2))
        { link_id := link_id, status := HistoryStatus.FAILURE,
          downloaded_files := none,
          error_message := some (r.error.getD unknown_error_msg) } := by
  subst hr
  simp [process_link, process_link_run, process_link_body, noExc, hget, hen, hs]

/-- Every outcome of download_media carries a deduplicated file list. -/
theorem download_media_nodup (st : Settings) (pe isf : String → Bool)
    (tb : ToolBehavior) (link : Link) :
    (download_media st pe isf tb link).downloaded_files.Nodup := by
  simp only [download_media]
  repeat' split
  all_goals first
  | exact List.nodup_dedup _
  | exact List.nodup_nil

/-! ## C3 -/

/-- C3: a link processed to a successful outcome ends with status IDLE,
error_message none, both last_checked_at and last_success_at advanced to
the final clock reading, and exactly one appended SUCCESS HistoryLog row
carrying the deduplicated list of produced files. -/
theorem C3_success_transition (st : Settings) (pe isf : String → Bool)
    (tb : ToolBehavior) (db : DB) (link_id t1 t2 t3 : Nat) (link : Link)
    (r : DownloadResult)
    (hget : getLink db link_id = some link)
    (hen : link.is_enabled = true)
    (hr : download_media st pe isf tb (update_status link
      (if link.link_type = LinkType.CREATOR then LinkStatus.DOWNLOADING else LinkStatus.RECORDING)
      none false t1) = r)
    (hs : r.status = "success")
    (hchk : ∀ u, link.last_checked_at = some u → u < t2)
    (hsuc : ∀ u, link.last_success_at = some u → u < t2) :
    ∃ link', getLink (process_link (download_media st pe isf tb) noExc db link_id t1 t2 t3)
        link_id = some link' ∧
      link'.status = LinkStatus.IDLE ∧
      link'.error_message = none ∧
      link'.last_checked_at = some t2 ∧
      link'.last_success_at = some t2 ∧
      (process_link (download_media st pe isf tb) noExc db link_id t1 t2 t3).history =
        db.history ++ [{ link_id := link_id, status := HistoryStatus.SUCCESS,
                         downloaded_files := some r.downloaded_files,
                         error_message := none }] ∧
      r.downloaded_files.Nodup := by
  have heq := process_link_success_case (download_media st pe isf tb) db link_id t1 t2 t3
    link r hget hen hr hs
  have hid : link.id = link_id := getLink_id hget
  set link1 := update_status link
    (if link.link_type = LinkType.CREATOR then LinkStatus.DOWNLOADING else LinkStatus.RECORDING)
    none false t1 with hlink1
  have hid1 : link1.id = link_id := by rw [hlink1, update_status_id]; exact hid
  set link2 := update_status link1 LinkStatus.IDLE none true t2 with hlink2
  have hid2 : link2.id = link_id := by rw [hlink2, update_status_id]; exact hid1
  refine ⟨link2, ?_, ?_, ?_, rfl, rfl, ?_, ?_⟩
  · rw [heq]
    show getLink (setLink (setLink db link1) link2) link_id = some link2
    exact getLink_setLink (getLink_setLink hget hid1) hid2
  · rfl
  · simp [hlink2, update_status]
  · rw [heq]; rfl
  · rw [← hr]
    exact download_media_nodup st pe isf tb link1

/-- C3 witness: a youtube CREATOR link whose yt-dlp run reports one
finished file that exists on disk. -/
def sampleToolOk : ToolBehavior :=
  { ydlEvents := [{ status := "finished",
                    info_filepath := some "/data/media/A/v.mp4",
                    filename := none }],
    ydlRaises := none,
    gdlSpawn := none }

def sampleSettings : Settings :=
  { MEDIA_ROOT := "/data/media", SITE_COOKIES := fun _ => none,
    MAX_CONCURRENT_DOWNLOADS := 5 }

def allFS : String → Bool := fun _ => true

theorem C3_success_transition_witness :
    ∃ link', getLink (process_link (download_media sampleSettings allFS allFS sampleToolOk) noExc
        { links := [sampleLink], history := [] } 1 1 2 3) 1 = some link' ∧
      link'.status = LinkStatus.IDLE ∧
      link'.error_message = none ∧
      link'.last_checked_at = some 2 ∧
      link'.last_success_at = some 2 ∧
      (process_link (download_media sampleSettings allFS allFS sampleToolOk) noExc
        { links := [sampleLink], history := [] } 1 1 2 3).history =
        [] ++ [{ link_id := 1, status := HistoryStatus.SUCCESS,
                 downloaded_files := some ["/data/media/A/v.mp4"],
                 error_message := none }] ∧
      (["/data/media/A/v.mp4"] : List String).Nodup := by
  have h := C3_success_transition sampleSettings allFS allFS sampleToolOk
    { links := [sampleLink], history := [] } 1 1 2 3 sampleLink
    { status := "success", error := none, downloaded_files := ["/data/media/A/v.mp4"] }
    (by decide) rfl (by decide) rfl
    (fun _ hu => Option.noConfusion hu)
    (fun _ hu => Option.noConfusion hu)
  exact h

/-! ## C4 -/

/-- C4: a link processed to a failed outcome ends with status ERROR and a
non-none error_message taken from the outcome, its last_checked_at
advanced to the final clock reading, its last_success_at untouched, and
exactly one appended FAILURE HistoryLog row carrying the message. -/
theorem C4_failure_transition (dl : Link → DownloadResult) (db : DB)
    (link_id t1 t2 t3 : Nat) (link : Link) (r : DownloadResult)
    (hget : getLink db link_id = some link)
    (hen : link.is_enabled = true)
    (hr : dl (update_status link
      (if link.link_type = LinkType.CREATOR then LinkStatus.DOWNLOADING else LinkStatus.RECORDING)
      none false t1) = r)
    (hs : r.status ≠ "success")
    (hchk : ∀ u, link.last_checked_at = some u → u < t2) :
    ∃ link', getLink (process_link dl noExc db link_id t1 t2 t3) link_id = some link' ∧
      link'.status = LinkStatus.ERROR ∧
      link'.error_message = some (r.error.getD unknown_error_msg) ∧
      link'.last_checked_at = some t2 ∧
      link'.last_success_at = link.last_success_at ∧
      (process_link dl noExc db link_id t1 t2 t3).history =
        db.history ++ [{ link_id := link_id, status := HistoryStatus.FAILURE,
                         downloaded_files := none,
                         error_message := some (r.error.getD unknown_error_msg) }] := by
  have heq := process_link_failure_case dl db link_id t1 t2 t3 link r hget hen hr hs
  have hid : link.id = link_id := getLink_id hget
  set link1 := update_status link
    (if link.link_type = LinkType.CREATOR then LinkStatus.DOWNLOADING else LinkStatus.RECORDING)
    none false t1 with hlink1
  have hid1 : link1.id = link_id := by rw [hlink1, update_status_id]; exact hid
  set link2 := update_status link1 LinkStatus.ERROR (some (r.error.getD unknown_error_msg))
    false t2 with hlink2
  have hid2 : link2.id = link_id := by rw [hlink2, update_status_id]; exact hid1
  refine ⟨link2, ?_, rfl, ?_, rfl, ?_, ?_⟩
  · rw [heq]
    show getLink (setLink (setLink db link1) link2) link_id = some link2
    exact getLink_setLink (getLink_setLink hget hid1) hid2
  · simp [hlink2, update_status]
  · simp [hlink2, hlink1, update_status]
  · rw [heq]; rfl

/-- C4 witness: a failed download with the message "Download timed out". -/
theorem C4_failure_transition_witness :
    ∃ link', getLink (process_link
        (fun _ => { status := "error", error := some "Download timed out",
                    downloaded_files := [] }) noExc
        { links := [sampleLink], history := [] } 1 1 2 3) 1 = some link' ∧
      link'.status = LinkStatus.ERROR ∧
      link'.error_message = some "Download timed out" ∧
      link'.last_checked_at = some 2 ∧
      link'.last_success_at = sampleLink.last_success_at ∧
      (process_link (fun _ => { status := "error", error := some "Download timed out",
                                downloaded_files := [] }) noExc
        { links := [sampleLink], history := [] } 1 1 2 3).history =
        [] ++ [{ link_id := 1, status := HistoryStatus.FAILURE, downloaded_files := none,
                 error_message := some "Download timed out" }] := by
  have h := C4_failure_transition
    (fun _ => { status := "error", error := some "Download timed out", downloaded_files := [] })
    { links := [sampleLink], history := [] } 1 1 2 3 sampleLink
    { status := "error", error := some "Download timed out", downloaded_files := [] }
    (by decide) rfl rfl (by decide)
    (fun _ hu => Option.noConfusion hu)
  exact h

/-! ## C2 -/

/-- A pixiv link routed to the external-process (gallery-dl) strategy. -/
def gdlSampleLink : Link :=
  { id := 1, url := "https://www.pixiv.net/users/1", link_type := LinkType.CREATOR,
    site_name := some "pixiv", status := LinkStatus.IDLE,
    last_checked_at := none, last_success_at := none, error_message := none,
    cookies_path := none, is_enabled := true, updated_at := 0 }

/-- gallery-dl run that exits 0 with empty output: tool success, zero
produced files. -/
def gdlOkNoFiles : ToolBehavior :=
  { ydlEvents := [], ydlRaises := none, gdlSpawn := some (0, [], "") }

def noFS : String → Bool := fun _ => false

/-- C2 counterexample: for the external-process strategy, a run whose
tool exits 0 with zero detected files yields outcome "success", and the
processor then sets status IDLE and appends a SUCCESS row — not the ERROR
status and FAILURE row the claim states for every strategy. -/
theorem C2_counterexample :
    (download_media sampleSettings noFS noFS gdlOkNoFiles (update_status gdlSampleLink
      LinkStatus.DOWNLOADING none false 1)).status = "success" ∧
    (download_media sampleSettings noFS noFS gdlOkNoFiles (update_status gdlSampleLink
      LinkStatus.DOWNLOADING none false 1)).downloaded_files = [] ∧
    (getLink (process_link (download_media sampleSettings noFS noFS gdlOkNoFiles) noExc
        { links := [gdlSampleLink], history := [] } 1 1 2 3) 1).map Link.status =
      some LinkStatus.IDLE ∧
    (process_link (download_media sampleSettings noFS noFS gdlOkNoFiles) noExc
        { links := [gdlSampleLink], history := [] } 1 1 2 3).history.map
      HistoryLog.status = [HistoryStatus.SUCCESS] := by
  refine ⟨by decide, by decide, by decide, by decide⟩

/-- A yt-dlp run that signals internal success while detecting no files
yields the no-output failure outcome. -/
theorem download_media_ydl_no_files (st : Settings) (pe isf : String → Bool)
    (tb : ToolBehavior) (link : Link)
    (hsite : siteOf link ∉ gdl_sites)
    (hraise : tb.ydlRaises = none)
    (hnofiles : ydlCollected pe isf tb.ydlEvents = []) :
    download_media st pe isf tb link =
      { status := "error", error := some ydl_no_files_msg, downloaded_files := [] } := by
  simp [download_media, get_downloader_for_link, hsite, hraise, hnofiles]

/-- C2 (amended): for the library (yt-dlp) strategy only, a run that
signals success internally but accumulates zero files ends with link
status ERROR and one appended FAILURE row whose message notes that no
output was detected; the external-process (gallery-dl) strategy instead
reports success on exit code 0 even with zero detected files (see the
counterexample). -/
theorem C2_no_output_failure (st : Settings) (pe isf : String → Bool)
    (tb : ToolBehavior) (db : DB) (link_id t1 t2 t3 : Nat) (link : Link)
    (hget : getLink db link_id = some link)
    (hen : link.is_enabled = true)
    (hsite : siteOf link ∉ gdl_sites)
    (hraise : tb.ydlRaises = none)
    (hnofiles : ydlCollected pe isf tb.ydlEvents = []) :
    ∃ link', getLink (process_link (download_media st pe isf tb) noExc db link_id t1 t2 t3)
        link_id = some link' ∧
      link'.status = LinkStatus.ERROR ∧
      link'.error_message = some ydl_no_files_msg ∧
      (process_link (download_media st pe isf tb) noExc db link_id t1 t2 t3).history =
        db.history ++ [{ link_id := link_id, status := HistoryStatus.FAILURE,
                         downloaded_files := none,
                         error_message := some ydl_no_files_msg }] := by
  have hsite1 : siteOf (update_status link
      (if link.link_type = LinkType.CREATOR then LinkStatus.DOWNLOADING else LinkStatus.RECORDING)
      none false t1) ∉ gdl_sites := hsite
  have hr := download_media_ydl_no_files st pe isf tb (update_status link
    (if link.link_type = LinkType.CREATOR then LinkStatus.DOWNLOADING else LinkStatus.RECORDING)
    none false t1) hsite1 hraise hnofiles
  have h := process_link_failure_case (download_media st pe isf tb) db link_id t1 t2 t3 link
    { status := "error", error := some ydl_no_files_msg, downloaded_files := [] }
    hget hen hr (by decide)
  have hid : link.id = link_id := getLink_id hget
  set link1 := update_status link
    (if link.link_type = LinkType.CREATOR then LinkStatus.DOWNLOADING else LinkStatus.RECORDING)
    none false t1 with hlink1
  have hid1 : link1.id = link_id := by rw [hlink1, update_status_id]; exact hid
  set link2 := update_status link1 LinkStatus.ERROR
    (some (Option.getD (some ydl_no_files_msg) unknown_error_msg)) false t2 with hlink2
  have hid2 : link2.id = link_id := by rw [hlink2, update_status_id]; exact hid1
  refine ⟨link2, ?_, rfl, ?_, ?_⟩
  · rw [h]
    show getLink (setLink (setLink db link1) link2) link_id = some link2
    exact getLink_setLink (getLink_setLink hget hid1) hid2
  · simp [hlink2, update_status]
  · rw [h]; rfl

/-- C2 witness: a youtube link whose yt-dlp run fires no hook events. -/
theorem C2_no_output_failure_witness :
    ∃ link', getLink (process_link (download_media sampleSettings noFS noFS
        { ydlEvents := [], ydlRaises := none, gdlSpawn := none }) noExc
        { links := [sampleLink], history := [] } 1 1 2 3) 1 = some link' ∧
      link'.status = LinkStatus.ERROR ∧
      link'.error_message = some ydl_no_files_msg ∧
      (process_link (download_media sampleSettings noFS noFS
        { ydlEvents := [], ydlRaises := none, gdlSpawn := none }) noExc
        { links := [sampleLink], history := [] } 1 1 2 3).history =
        [] ++ [{ link_id := 1, status := HistoryStatus.FAILURE,
                 downloaded_files := none,
                 error_message := some ydl_no_files_msg }] := by
  have h := C2_no_output_failure sampleSettings noFS noFS
    { ydlEvents := [], ydlRaises := none, gdlSpawn := none }
    { links := [sampleLink], history := [] } 1 1 2 3 sampleLink
    (by decide) rfl (by decide) rfl rfl
  exact h

/-! ## C5 -/

/-- C5: whatever raises at whatever step, process_link propagates no
exception to its caller; and whenever the try block escapes with an
exception and the recovery calls themselves do not raise, the recovery
re-fetches the link and, when found, forces status ERROR with a
"Processing Exception: ..." message and appends one FAILURE row; when a
recovery call raises, the failure is swallowed. -/
theorem C5_never_propagates (dl : Link → DownloadResult) (o : ExcOracle) (db : DB)
    (link_id t1 t2 t3 : Nat) :
    (process_link_run dl o db link_id t1 t2 t3).2 = none ∧
    (∀ e, (process_link_body dl o db link_id t1 t2).2 = some e →
      o.recoveryGetRaises = none → o.recoveryUpdateRaises = none →
      o.recoveryLogRaises = none →
      ∀ lx, getLink (process_link_body dl o db link_id t1 t2).1 link_id = some lx →
        ∃ link', getLink (process_link dl o db link_id t1 t2 t3) link_id = some link' ∧
          link'.status = LinkStatus.ERROR ∧
          link'.error_message = some ("Processing Exception: " ++ e) ∧
          (process_link dl o db link_id t1 t2 t3).history =
            (process_link_body dl o db link_id t1 t2).1.history ++
              [{ link_id := link_id, status := HistoryStatus.FAILURE,
                 downloaded_files := none,
                 error_message := some ("Processing Exception: " ++ e) }]) := by
  constructor
  · unfold process_link_run
    rcases hb : (process_link_body dl o db link_id t1 t2).2 with _ | e
    all_goals simp only [hb]
    all_goals repeat' split
    all_goals rfl
  · intro e hbody hg hu hl lx hfound
    have hidx : lx.id = link_id := getLink_id hfound
    set link2 := update_status lx LinkStatus.ERROR
      (some ("Processing Exception: " ++ e)) false t3 with hlink2
    have hid2 : link2.id = link_id := by rw [hlink2, update_status_id]; exact hidx
    have hrun : process_link dl o db link_id t1 t2 t3 =
        addHistory (setLink (process_link_body dl o db link_id t1 t2).1 link2)
          { link_id := link_id, status := HistoryStatus.FAILURE,
            downloaded_files := none,
            error_message := some ("Processing Exception: " ++ e) } := by
      unfold process_link process_link_run
      simp only [hbody, hg, hu, hl, hfound]
    refine ⟨link2, ?_, rfl, ?_, ?_⟩
    · rw [hrun]
      exact getLink_setLink hfound hid2
    · simp [hlink2, update_status]
    · rw [hrun]; rfl

/-- C5 witness: the first status update raises "db connection lost"; the
recovery then lands the link in ERROR with the exception message and one
FAILURE row, and nothing propagates. -/
theorem C5_never_propagates_witness :
    (process_link_run (fun _ => { status := "success", error := none, downloaded_files := [] })
      { noExc with update1Raises := some "db connection lost" }
      { links := [sampleLink], history := [] } 1 1 2 3).2 = none ∧
    ∃ link', getLink (process_link
        (fun _ => { status := "success", error := none, downloaded_files := [] })
        { noExc with update1Raises := some "db connection lost" }
        { links := [sampleLink], history := [] } 1 1 2 3) 1 = some link' ∧
      link'.status = LinkStatus.ERROR ∧
      link'.error_message = some ("Processing Exception: " ++ "db connection lost") ∧
      (process_link (fun _ => { status := "success", error := none, downloaded_files := [] })
        { noExc with update1Raises := some "db connection lost" }
        { links := [sampleLink], history := [] } 1 1 2 3).history =
        (process_link_body (fun _ => { status := "success", error := none, downloaded_files := [] })
          { noExc with update1Raises := some "db connection lost" }
          { links := [sampleLink], history := [] } 1 1 2).1.history ++
          [{ link_id := 1, status := HistoryStatus.FAILURE,
             downloaded_files := none,
             error_message := some ("Processing Exception: " ++ "db connection lost") }] := by
  have h := C5_never_propagates
    (fun _ => { status := "success", error := none, downloaded_files := [] })
    { noExc with update1Raises := some "db connection lost" }
    { links := [sampleLink], history := [] } 1 1 2 3
  exact ⟨h.1, h.2 "db connection lost" (by decide) rfl rfl rfl sampleLink (by decide)⟩

/-! ## C6 -/

/-- C6: a link whose status is MONITORING, DOWNLOADING, or RECORDING is
excluded by the batch selection query, and the manual trigger answers it
with the conflict signal and starts no processing run (the state is
untouched). -/
theorem C6_inflight_excluded (dl : Link → DownloadResult) (o : ExcOracle)
    (db : DB) (link_id : Nat) (l : Link) (t1 t2 t3 : Nat)
    (hget : getLink db link_id = some l)
    (hin : l.status = LinkStatus.MONITORING ∨ l.status = LinkStatus.DOWNLOADING ∨
      l.status = LinkStatus.RECORDING) :
    l ∉ selectEligible db.links ∧
    trigger_link_task dl o db link_id t1 t2 t3 = (TriggerResult.conflict, db) := by
  constructor
  · intro hmem
    have hp := List.of_mem_filter hmem
    rcases hin with h | h | h <;> simp [h] at hp
  · unfold trigger_link_task
    rw [hget]
    rcases hin with h | h | h <;> simp [h]

/-- C6 witness: a DOWNLOADING link is excluded and rejected. -/
theorem C6_inflight_excluded_witness :
    sampleLink ∉ selectEligible [sampleLink] ∧
    trigger_link_task (fun _ => { status := "success", error := none, downloaded_files := [] })
      noExc { links := [sampleLink], history := [] } 1 1 2 3 =
      (TriggerResult.conflict, { links := [sampleLink], history := [] }) := by
  have h := C6_inflight_excluded
    (fun _ => { status := "success", error := none, downloaded_files := [] }) noExc
    { links := [sampleLink], history := [] } 1 sampleLink 1 2 3
    (by decide) (Or.inr (Or.inl rfl))
  exact h

/-! ## C7 -/

/-- The cookie-resolution precedence exactly as the spec words it: the
link-specific cookie file when its path exists on disk, else the global
per-site cookie file when it exists, else none.  Used only to compare the
code's selection against the spec. -/
def cookiePrecedenceSpec (pathExists : String → Bool)
    (linkCookie siteCookie : Option String) : Option String :=
  match linkCookie with
  | some p =>
    if pathExists p then some p
    else
      match siteCookie with
      | some q => if pathExists q then some q else none
      | none => none
  | none =>
    match siteCookie with
    | some q => if pathExists q then some q else none
    | none => none

theorem cookie_global_eq_spec (pe : String → Bool) (g : Option String)
    (hempty : pe "" = false) :
    (if pyTruthy g && pe (g.getD "") then g else none) =
      (match g with
       | some q => if pe q then some q else none
       | none => none) := by
  rcases g with _ | q
  · simp [pyTruthy]
  · by_cases hq : q = ""
    · subst hq; simp [pyTruthy, hempty]
    · simp [pyTruthy, hq]

/-- The duplicated two-tier cookie selection of the code equals the
spec's precedence, given that os.path.exists("") is false. -/
theorem cookie_resolution_eq_spec (pe : String → Bool) (cp g : Option String)
    (hempty : pe "" = false) :
    (match (if pyTruthy cp && pe (cp.getD "") then cp else none) with
     | some p => some p
     | none => if pyTruthy g && pe (g.getD "") then g else none) =
    cookiePrecedenceSpec pe cp g := by
  rcases cp with _ | p
  · simpa [pyTruthy, cookiePrecedenceSpec] using cookie_global_eq_spec pe g hempty
  · by_cases hp : p = ""
    · subst hp
      simpa [pyTruthy, cookiePrecedenceSpec, hempty] using cookie_global_eq_spec pe g hempty
    · by_cases hep : pe p
      · simp [pyTruthy, cookiePrecedenceSpec, hp, hep]
      · simpa [pyTruthy, cookiePrecedenceSpec, hp, hep] using cookie_global_eq_spec pe g hempty

theorem argsCookie_of_not_mem :
    ∀ xs : List String, "--cookies" ∉ xs → argsCookie xs = none
  | [], _ => rfl
  | [_], _ => rfl
  | x :: y :: rest, h => by
    have hx : ¬(x = "--cookies") := fun hc => h (hc ▸ List.mem_cons_self x (y :: rest))
    rw [show argsCookie (x :: y :: rest) =
      (if x = "--cookies" then some y else argsCookie (y :: rest)) from rfl]
    rw [if_neg hx]
    exact argsCookie_of_not_mem (y :: rest) (fun hm => h (List.mem_cons_of_mem x hm))

theorem argsCookie_append (p : String) :
    ∀ xs : List String, "--cookies" ∉ xs →
      argsCookie (xs ++ ["--cookies", p]) = some p
  | [], _ => by
    rw [show ([] : List String) ++ ["--cookies", p] = ["--cookies", p] from rfl]
    rw [show argsCookie ["--cookies", p] =
      (if "--cookies" = "--cookies" then some p else argsCookie [p]) from rfl]
    rw [if_pos rfl]
  | [x], h => by
    have hx : ¬(x = "--cookies") := fun hc => h (hc ▸ List.mem_cons_self x [])
    rw [show [x] ++ ["--cookies", p] = x :: "--cookies" :: [p] from rfl]
    rw [show argsCookie (x :: "--cookies" :: [p]) =
      (if x = "--cookies" then some "--cookies" else argsCookie ("--cookies" :: [p])) from rfl]
    rw [if_neg hx]
    rw [show argsCookie ("--cookies" :: [p]) =
      (if "--cookies" = "--cookies" then some p else argsCookie [p]) from rfl]
    rw [if_pos rfl]
  | x :: y :: rest, h => by
    have hx : ¬(x = "--cookies") := fun hc => h (hc ▸ List.mem_cons_self x (y :: rest))
    rw [show (x :: y :: rest) ++ ["--cookies", p] =
      x :: (y :: (rest ++ ["--cookies", p])) from rfl]
    rw [show argsCookie (x :: y :: (rest ++ ["--cookies", p])) =
      (if x = "--cookies" then some y
       else argsCookie (y :: (rest ++ ["--cookies", p]))) from rfl]
    rw [if_neg hx]
    exact argsCookie_append p (y :: rest) (fun hm => h (List.mem_cons_of_mem x hm))

/-- C7: the selector always yields one of the two downloaders (it never
fails), and the cookie option it emits — re-evaluated from the link and
the ambient settings on each call — follows the fixed precedence of the
spec: link-specific file if it exists on disk, else the global per-site
file if it exists, else none; a configured-but-missing file at either
tier is skipped, never fatal.  The hypotheses record that
os.path.exists("") is false and that "--cookies" is not among the default
gallery-dl arguments (true of any absolute MEDIA_ROOT). -/
theorem C7_cookie_precedence (st : Settings) (pe : String → Bool) (link : Link)
    (hempty : pe "" = false)
    (hargs : "--cookies" ∉ gdl_default_args st) :
    ((get_downloader_for_link st pe link).1 = "gallery-dl" ∨
      (get_downloader_for_link st pe link).1 = "yt-dlp") ∧
    configCookie (get_downloader_for_link st pe link).2 =
      cookiePrecedenceSpec pe link.cookies_path (st.SITE_COOKIES (siteOf link)) := by
  have hc := cookie_resolution_eq_spec pe link.cookies_path
    (st.SITE_COOKIES (siteOf link)) hempty
  by_cases hsite : siteOf link ∈ gdl_sites
  · refine ⟨Or.inl (by simp [get_downloader_for_link, hsite]), ?_⟩
    rw [← hc]
    rcases hcp : (if pyTruthy link.cookies_path && pe (link.cookies_path.getD "") then
        link.cookies_path else none) with _ | p
    · rcases hg : (if pyTruthy (st.SITE_COOKIES (siteOf link)) &&
          pe ((st.SITE_COOKIES (siteOf link)).getD "") then
          st.SITE_COOKIES (siteOf link) else none) with _ | q
      · simp only [get_downloader_for_link, hsite, if_pos, hcp, hg, configCookie]
        exact argsCookie_of_not_mem _ hargs
      · simp only [get_downloader_for_link, hsite, if_pos, hcp, hg, configCookie]
        exact argsCookie_append q _ hargs
    · simp only [get_downloader_for_link, hsite, if_pos, hcp, configCookie]
      exact argsCookie_append p _ hargs
  · refine ⟨Or.inr (by simp [get_downloader_for_link, hsite]), ?_⟩
    rw [← hc]
    rcases hcp : (if pyTruthy link.cookies_path && pe (link.cookies_path.getD "") then
        link.cookies_path else none) with _ | p
    · rcases hg : (if pyTruthy (st.SITE_COOKIES (siteOf link)) &&
          pe ((st.SITE_COOKIES (siteOf link)).getD "") then
          st.SITE_COOKIES (siteOf link) else none) with _ | q
      · simp only [Bool.and_eq_true] at hcp hg
        by_cases hlt : link.link_type = LinkType.LIVE <;>
          simp [get_downloader_for_link, hsite, hcp, hg, configCookie, hlt, ydl_default_opts]
      · simp only [Bool.and_eq_true] at hcp hg
        by_cases hlt : link.link_type = LinkType.LIVE <;>
          simp [get_downloader_for_link, hsite, hcp, hg, configCookie, hlt, ydl_default_opts]
    · simp only [Bool.and_eq_true] at hcp
      by_cases hlt : link.link_type = LinkType.LIVE <;>
        simp [get_downloader_for_link, hsite, hcp, configCookie, hlt, ydl_default_opts]

/-- C7 witness: a pixiv link with a link cookie file that is missing on
disk while the global pixiv cookie file exists: the global file wins. -/
theorem C7_cookie_precedence_witness :
    ((get_downloader_for_link
        { MEDIA_ROOT := "/data/media",
          SITE_COOKIES := fun s => if s = "pixiv" then some "/cookies/pixiv.txt" else none,
          MAX_CONCURRENT_DOWNLOADS := 5 }
        (fun s => s = "/cookies/pixiv.txt")
        { gdlSampleLink with cookies_path := some "user_cookies/mine.txt" }).1 = "gallery-dl" ∨
      (get_downloader_for_link
        { MEDIA_ROOT := "/data/media",
          SITE_COOKIES := fun s => if s = "pixiv" then some "/cookies/pixiv.txt" else none,
          MAX_CONCURRENT_DOWNLOADS := 5 }
        (fun s => s = "/cookies/pixiv.txt")
        { gdlSampleLink with cookies_path := some "user_cookies/mine.txt" }).1 = "yt-dlp") ∧
    configCookie (get_downloader_for_link
        { MEDIA_ROOT := "/data/media",
          SITE_COOKIES := fun s => if s = "pixiv" then some "/cookies/pixiv.txt" else none,
          MAX_CONCURRENT_DOWNLOADS := 5 }
        (fun s => s = "/cookies/pixiv.txt")
        { gdlSampleLink with cookies_path := some "user_cookies/mine.txt" }).2 =
      cookiePrecedenceSpec (fun s => s = "/cookies/pixiv.txt")
        (some "user_cookies/mine.txt")
        ((fun s : String => if s = "pixiv" then some "/cookies/pixiv.txt" else none)
          (siteOf { gdlSampleLink with cookies_path := some "user_cookies/mine.txt" })) := by
  have h := C7_cookie_precedence
    { MEDIA_ROOT := "/data/media",
      SITE_COOKIES := fun s => if s = "pixiv" then some "/cookies/pixiv.txt" else none,
      MAX_CONCURRENT_DOWNLOADS := 5 }
    (fun s => s = "/cookies/pixiv.txt")
    { gdlSampleLink with cookies_path := some "user_cookies/mine.txt" }
    (by decide) (by decide)
  exact h

/-! ## C8 -/

theorem frame_addHistory_setLink2 (db : DB) (l1 l2 : Link) (h : HistoryLog) (i : Nat)
    (h1 : l1.id ≠ i) (h2 : l2.id ≠ i) (hh : h.link_id ≠ i) :
    getLink (addHistory (setLink (setLink db l1) l2) h) i = getLink db i ∧
    (addHistory (setLink (setLink db l1) l2) h).history.filter (fun x => x.link_id = i) =
      db.history.filter (fun x => x.link_id = i) := by
  constructor
  · show getLink (setLink (setLink db l1) l2) i = getLink db i
    rw [getLink_setLink_ne h2, getLink_setLink_ne h1]
  · exact addHistory_filter_ne (setLink (setLink db l1) l2) h i hh

/-- Processing link j never touches link i nor i's history rows. -/
theorem process_link_body_frame (dl : Link → DownloadResult) (o : ExcOracle) (db : DB)
    (j t1 t2 : Nat) (i : Nat) (hne : i ≠ j) :
    getLink (process_link_body dl o db j t1 t2).1 i = getLink db i ∧
    (process_link_body dl o db j t1 t2).1.history.filter (fun h => h.link_id = i) =
      db.history.filter (fun h => h.link_id = i) := by
  unfold process_link_body
  rcases h1 : o.getRaises with _ | e1
  case some => simp [h1]
  simp only [h1]
  rcases hfind : getLink db j with _ | link
  case none => simp [hfind]
  simp only [hfind]
  have hlid : link.id = j := getLink_id hfind
  have hne1 : (update_status link (if link.link_type = LinkType.CREATOR then
      LinkStatus.DOWNLOADING else LinkStatus.RECORDING) none false t1).id ≠ i := by
    rw [update_status_id, hlid]; exact fun hji => hne hji.symm
  by_cases hen : link.is_enabled
  case neg => simp [hen]
  simp only [hen, Bool.not_true, Bool.false_eq_true, if_false]
  rcases h2 : o.update1Raises with _ | e2
  swap
  · simp [h2]
  simp only [h2]
  rcases h3 : o.downloadRaises with _ | e3
  swap
  · simp only [h3]
    exact ⟨getLink_setLink_ne hne1, rfl⟩
  simp only [h3]
  by_cases hr : (dl (update_status link (if link.link_type = LinkType.CREATOR then
      LinkStatus.DOWNLOADING else LinkStatus.RECORDING) none false t1)).status = "success"
  · rw [if_pos hr]
    rcases h4 : o.finalUpdateRaises with _ | e4
    swap
    · simp only [h4]
      exact ⟨getLink_setLink_ne hne1, rfl⟩
    simp only [h4]
    rcases h5 : o.logRaises with _ | e5
    swap
    · simp only [h5]
      refine ⟨?_, rfl⟩
      rw [getLink_setLink_ne (show (update_status (update_status link _ none false t1)
        LinkStatus.IDLE none true t2).id ≠ i by rw [update_status_id]; exact hne1),
        getLink_setLink_ne hne1]
    simp only [h5]
    exact frame_addHistory_setLink2 db _ _ _ i hne1
      (by rw [update_status_id]; exact hne1) (fun hji => hne hji.symm)
  · rw [if_neg hr]
    rcases h4 : o.finalUpdateRaises with _ | e4
    swap
    · simp only [h4]
      exact ⟨getLink_setLink_ne hne1, rfl⟩
    simp only [h4]
    rcases h5 : o.logRaises with _ | e5
    swap
    · simp only [h5]
      refine ⟨?_, rfl⟩
      rw [getLink_setLink_ne (show (update_status (update_status link _ none false t1)
        LinkStatus.ERROR _ false t2).id ≠ i by rw [update_status_id]; exact hne1),
        getLink_setLink_ne hne1]
    simp only [h5]
    exact frame_addHistory_setLink2 db _ _ _ i hne1
      (by rw [update_status_id]; exact hne1) (fun hji => hne hji.symm)

theorem process_link_frame (dl : Link → DownloadResult) (o : ExcOracle) (db : DB)
    (j t1 t2 t3 : Nat) (i : Nat) (hne : i ≠ j) :
    getLink (process_link dl o db j t1 t2 t3) i = getLink db i ∧
    (process_link dl o db j t1 t2 t3).history.filter (fun h => h.link_id = i) =
      db.history.filter (fun h => h.link_id = i) := by
  have hbody := process_link_body_frame dl o db j t1 t2 i hne
  unfold process_link process_link_run
  rcases hb : (process_link_body dl o db j t1 t2).2 with _ | e
  case none => simp only [hb]; exact hbody
  simp only [hb]
  rcases hg : o.recoveryGetRaises with _ | e1
  case some => simp only [hg]; exact hbody
  simp only [hg]
  rcases hfind : getLink (process_link_body dl o db j t1 t2).1 j with _ | lx
  case none => simp only [hfind]; exact hbody
  simp only [hfind]
  have hlx : lx.id = j := getLink_id hfind
  have hne2 : (update_status lx LinkStatus.ERROR
      (some ("Processing Exception: " ++ e)) false t3).id ≠ i := by
    rw [update_status_id, hlx]; exact fun hji => hne hji.symm
  rcases hu : o.recoveryUpdateRaises with _ | e2
  case some => simp only [hu]; exact hbody
  simp only [hu]
  rcases hl : o.recoveryLogRaises with _ | e3
  case some =>
    simp only [hl]
    refine ⟨?_, ?_⟩
    · rw [getLink_setLink_ne hne2]; exact hbody.1
    · exact hbody.2
  simp only [hl]
  refine ⟨?_, ?_⟩
  · show getLink (addHistory (setLink (process_link_body dl o db j t1 t2).1 _) _) i =
      getLink db i
    show getLink (setLink (process_link_body dl o db j t1 t2).1 _) i = getLink db i
    rw [getLink_setLink_ne hne2]; exact hbody.1
  · have hfil := addHistory_filter_ne
      (setLink (process_link_body dl o db j t1 t2).1
        (update_status lx LinkStatus.ERROR (some ("Processing Exception: " ++ e)) false t3))
      { link_id := j, status := HistoryStatus.FAILURE, downloaded_files := none,
        error_message := some ("Processing Exception: " ++ e) } i
      (fun hji => hne hji.symm)
    exact hfil.trans hbody.2

/-- The whole batch fold never touches a link id absent from the selected
set. -/
theorem trigger_job_frame (dl : Link → DownloadResult) (os : Nat → ExcOracle)
    (ts : Nat → Nat × Nat × Nat) (i : Nat) :
    ∀ (sel : List Link) (acc : DB), (∀ l' ∈ sel, l'.id ≠ i) →
      getLink (sel.foldl (fun a l => process_link dl (os l.id) a l.id (ts l.id).1
        (ts l.id).2.1 (ts l.id).2.2) acc) i = getLink acc i ∧
      (sel.foldl (fun a l => process_link dl (os l.id) a l.id (ts l.id).1
        (ts l.id).2.1 (ts l.id).2.2) acc).history.filter (fun h => h.link_id = i) =
        acc.history.filter (fun h => h.link_id = i)
  | [], acc, _ => ⟨rfl, rfl⟩
  | l :: rest, acc, hall => by
    have hstep := process_link_frame dl (os l.id) acc l.id (ts l.id).1 (ts l.id).2.1
      (ts l.id).2.2 i (fun hil => (hall l (List.mem_cons_self l rest)) hil.symm)
    have hrest := trigger_job_frame dl os ts i rest
      (process_link dl (os l.id) acc l.id (ts l.id).1 (ts l.id).2.1 (ts l.id).2.2)
      (fun l' hm => hall l' (List.mem_cons_of_mem l hm))
    exact ⟨hrest.1.trans hstep.1, hrest.2.trans hstep.2⟩

/-- C8: a batch run leaves a missing or disabled link id entirely alone:
its row (status, error message, timestamps) is unchanged and no history
row with its id is created; and the processor itself is a silent no-op on
such an id. -/
theorem C8_disabled_or_missing_untouched (dl : Link → DownloadResult)
    (os : Nat → ExcOracle) (ts : Nat → Nat × Nat × Nat) (db : DB) (link_id : Nat)
    (t1 t2 t3 : Nat)
    (hids : (db.links.map Link.id).Nodup)
    (hcase : getLink db link_id = none ∨
      ∃ l, getLink db link_id = some l ∧ l.is_enabled = false) :
    getLink (trigger_monitoring_job dl os ts db) link_id = getLink db link_id ∧
    (trigger_monitoring_job dl os ts db).history.filter (fun h => h.link_id = link_id) =
      db.history.filter (fun h => h.link_id = link_id) ∧
    process_link dl noExc db link_id t1 t2 t3 = db := by
  have hall : ∀ l' ∈ selectEligible db.links, l'.id ≠ link_id := by
    intro l' hmem hlid
    have hmeml : l' ∈ db.links := List.mem_of_mem_filter hmem
    have hp := List.of_mem_filter hmem
    have hen : l'.is_enabled = true := by
      rcases Bool.and_eq_true .. |>.mp hp with ⟨h, _⟩
      exact h
    rcases hcase with hnone | ⟨l, hsome, hdis⟩
    · have := List.find?_eq_none.mp hnone l' hmeml
      simp [hlid] at this
    · have hl : l ∈ db.links := getLink_mem hsome
      have hlidl : l.id = link_id := getLink_id hsome
      have : l' = l :=
        List.inj_on_of_nodup_map hids hmeml hl (by rw [hlid, hlidl])
      rw [this, hdis] at hen
      exact Bool.false_ne_true hen
  have hframe := trigger_job_frame dl os ts link_id (selectEligible db.links) db hall
  refine ⟨hframe.1, hframe.2, ?_⟩
  rcases hcase with hnone | ⟨l, hsome, hdis⟩
  · simp [process_link, process_link_run, process_link_body, noExc, hnone]
  · simp [process_link, process_link_run, process_link_body, noExc, hsome, hdis]

/-- C8 witness: a disabled link survives a batch untouched. -/
def disabledLink : Link :=
  { id := 2, url := "https://example.com/b", link_type := LinkType.CREATOR,
    site_name := none, status := LinkStatus.IDLE,
    last_checked_at := none, last_success_at := none, error_message := none,
    cookies_path := none, is_enabled := false, updated_at := 0 }

theorem C8_disabled_or_missing_untouched_witness :
    getLink (trigger_monitoring_job
      (fun _ => { status := "success", error := none, downloaded_files := [] })
      (fun _ => noExc) (fun _ => (1, 2, 3))
      { links := [disabledLink], history := [] }) 2 =
      getLink { links := [disabledLink], history := [] } 2 ∧
    (trigger_monitoring_job
      (fun _ => { status := "success", error := none, downloaded_files := [] })
      (fun _ => noExc) (fun _ => (1, 2, 3))
      { links := [disabledLink], history := [] }).history.filter
        (fun h => h.link_id = 2) =
      List.filter (fun h => h.link_id = 2)
        (DB.history { links := [disabledLink], history := [] }) ∧
    process_link (fun _ => { status := "success", error := none, downloaded_files := [] })
      noExc { links := [disabledLink], history := [] } 2 1 2 3 =
      { links := [disabledLink], history := [] } := by
  have h := C8_disabled_or_missing_untouched
    (fun _ => { status := "success", error := none, downloaded_files := [] })
    (fun _ => noExc) (fun _ => (1, 2, 3))
    { links := [disabledLink], history := [] } 2 1 2 3
    (by decide) (Or.inr ⟨disabledLink, by decide, rfl⟩)
  exact h

/-! ## C9 -/

theorem count_set_phase (c : TaskPhase) :
    ∀ (ts : List TaskPhase) (i : Nat) (a b : TaskPhase), ts[i]? = some a →
      (ts.set i b).count c + (if a = c then 1 else 0) =
        ts.count c + (if b = c then 1 else 0)
  | [], i, a, b, h => by simp at h
  | x :: tl, 0, a, b, h => by
    have hx : x = a := by simpa using h
    subst hx
    simp only [List.set]
    rw [List.count_cons, List.count_cons]
    by_cases hac : x = c <;> by_cases hbc : b = c <;>
      simp [hac, hbc] <;> omega
  | x :: tl, n + 1, a, b, h => by
    have htl : tl[n]? = some a := by simpa using h
    simp only [List.set]
    rw [List.count_cons, List.count_cons]
    have := count_set_phase c tl n a b htl
    by_cases hxc : x = c <;> simp [hxc] <;> omega

/-- The semaphore discipline invariant: the counter plus the number of
running batch tasks always equals the configured maximum. -/
def SchedInv (K : Nat) (s : SchedState) : Prop :=
  s.sem + runningCount s.batch = K

theorem schedStep_inv {K : Nat} {s s' : SchedState} {lab : SchedLabel}
    (h : SchedStep s lab s') (hinv : SchedInv K s) : SchedInv K s' := by
  cases h with
  | acquireStart i hp hsem =>
    unfold SchedInv runningCount at *
    have hc := count_set_phase TaskPhase.running s.batch i TaskPhase.pending
      TaskPhase.running hp
    simp at hc
    simp only []
    omega
  | releaseFinish i hp =>
    unfold SchedInv runningCount at *
    have hc := count_set_phase TaskPhase.running s.batch i TaskPhase.running
      TaskPhase.finished hp
    simp at hc
    simp only []
    omega
  | manualStart i hp => exact hinv
  | manualFinish i hp => exact hinv

theorem schedReach_inv {K N M : Nat} {s : SchedState}
    (h : SchedReach (initSched K N M) s) : SchedInv K s := by
  induction h with
  | refl =>
    unfold SchedInv initSched runningCount
    simp [List.count_replicate]
  | tail hab hbc ih =>
    rcases hbc with ⟨lab, hstep⟩
    exact schedStep_inv hstep ih

/-- C9: with the batch semaphore sized K, in every reachable interleaving
of one batch (plus any number of manual-trigger runs) at most K batch
link-processor runs are simultaneously in-flight, and a manual-trigger
start never consumes the semaphore (its counter is unchanged). -/
theorem C9_semaphore_bound (K N M : Nat) (hK : K < N) (s : SchedState)
    (hreach : SchedReach (initSched K N M) s) :
    runningCount s.batch ≤ K ∧
    (∀ s1 s2 i, SchedStep s1 (SchedLabel.manualStart i) s2 → s2.sem = s1.sem) := by
  constructor
  · have hinv := schedReach_inv hreach
    unfold SchedInv at hinv
    omega
  · intro s1 s2 i h
    cases h
    rfl

/-- C9 witness: two batch tasks, bound 1, one task admitted: one running
run, within the bound; state reached by a single acquire step. -/
theorem C9_semaphore_bound_witness :
    runningCount (SchedState.batch
      { sem := 0, batch := [TaskPhase.running, TaskPhase.pending],
        manual := [TaskPhase.pending] }) ≤ 1 ∧
    (∀ s1 s2 i, SchedStep s1 (SchedLabel.manualStart i) s2 → s2.sem = s1.sem) := by
  have h := C9_semaphore_bound 1 2 1 (by decide)
    { sem := 0, batch := [TaskPhase.running, TaskPhase.pending],
      manual := [TaskPhase.pending] }
    (Relation.ReflTransGen.single
      ⟨SchedLabel.acquireStart 0, SchedStep.acquireStart (initSched 1 2 1) 0 rfl (by decide)⟩)
  exact h





